import Mathlib

/-!
Verification of the gumloop iteration/loop engine: output adapters,
command builder, change detector, process supervisor and loop controller,
shallowly embedded from the Go sources.
-/

namespace Gumloop

/-- Normalized event emitted by an output adapter
(internal/adapter, part_013: ToolUse / AssistantMessage / Error). -/
inductive Event where
  | toolUse (name : String)
  | assistantMessage (text : String)
  | error (message : String)
deriving DecidableEq, Repr

/-- Models bufio's dropCR: drops one trailing carriage return. -/
def dropCR (cs : List Char) : List Char :=
  match cs.getLast? with
  | some c => if c = '\r' then cs.dropLast else cs
  | none => cs

/-- Accumulator form of the line scanner; `acc` holds the current line reversed. -/
def scanLinesAux : List Char → List Char → List String
  | [], acc => if acc = [] then [] else [String.mk (dropCR acc.reverse)]
  | c :: rest, acc =>
    if c = '\n' then String.mk (dropCR acc.reverse) :: scanLinesAux rest []
    else scanLinesAux rest (c :: acc)

/-- Models bufio.Scanner with ScanLines: newline-separated tokens, trailing
carriage returns dropped, a final token only if nonempty data remains at EOF. -/
def scanLines (s : String) : List String :=
  scanLinesAux s.data []

/-- PassThroughAdapter.Process (part_011): every scanned line is forwarded
verbatim as one AssistantMessage event. -/
def passThroughProcessLines : List String → List Event
  | [] => []
  | line :: rest => Event.assistantMessage line :: passThroughProcessLines rest

/-- PassThroughAdapter.Process on a raw byte stream: scan lines, forward each. -/
def passThroughProcess (s : String) : List Event :=
  passThroughProcessLines (scanLines s)

/-- CodexEvent (part_012): one line of codex --json output. -/
structure CodexEvent where
  type : String
  content : String
  tool : String
  text : String
  message : String
  error : String
deriving DecidableEq, Repr

/-- CodexAdapter.Process, body of the per-line loop (part_012).
`parse` stands for encoding/json.Unmarshal into CodexEvent:
none models a parse failure. -/
def codexProcessLine (parse : String → Option CodexEvent) (line : String) :
    List Event :=
  if line = "" then []
  else
    match parse line with
    | none => [Event.assistantMessage line]
    | some event =>
      if event.error ≠ "" then [Event.error event.error]
      else
        (if event.tool ≠ "" then [Event.toolUse event.tool] else []) ++
        (let text :=
          if event.content ≠ "" then event.content
          else if event.text ≠ "" then event.text
          else if event.message ≠ "" then event.message
          else ""
         if text ≠ "" then [Event.assistantMessage text] else [])

/-- CodexAdapter.Process (part_012): scanner loop over the input lines. -/
def codexProcess (parse : String → Option CodexEvent) : List String → List Event
  | [] => []
  | line :: rest => codexProcessLine parse line ++ codexProcess parse rest

/-- ClaudeContent (adapter source): a content block of an assistant message. -/
structure ClaudeContent where
  type : String
  text : String
deriving DecidableEq, Repr

/-- ClaudeDelta (adapter source): incremental text update. -/
structure ClaudeDelta where
  type : String
  text : String
deriving DecidableEq, Repr

/-- ClaudeEventData (adapter source): stream event payload. -/
structure ClaudeEventData where
  delta : ClaudeDelta
deriving DecidableEq, Repr

/-- ClaudeMessage (adapter source): content blocks of an assistant message. -/
structure ClaudeMessage where
  content : List ClaudeContent
deriving DecidableEq, Repr

/-- ClaudeStreamEvent (adapter source): one line of stream-json output. -/
structure ClaudeStreamEvent where
  type : String
  name : String
  message : ClaudeMessage
  event : ClaudeEventData
deriving DecidableEq, Repr

/-- Emission of AssistantMessage events for the content blocks of an
assistant record, in order (adapter source, the assistant case). -/
def claudeAssistantEvents : List ClaudeContent → List Event
  | [] => []
  | content :: rest =>
    (if content.type = "text" ∧ content.text ≠ "" then
      [Event.assistantMessage content.text] else []) ++
    claudeAssistantEvents rest

/-- ClaudeAdapter.Process, body of the per-line loop (adapter source).
`parse` stands for encoding/json.Unmarshal into ClaudeStreamEvent:
none models a parse failure (logged and skipped). -/
def claudeProcessLine (parse : String → Option ClaudeStreamEvent) (line : String) :
    List Event :=
  if line = "" then []
  else
    match parse line with
    | none => []
    | some event =>
      match event.type with
      | "assistant" => claudeAssistantEvents event.message.content
      | "tool_use" => if event.name ≠ "" then [Event.toolUse event.name] else []
      | "result" => []
      | "stream_event" =>
        if event.event.delta.type = "text_delta" ∧ event.event.delta.text ≠ "" then
          [Event.assistantMessage event.event.delta.text]
        else []
      | _ => []

/-- ClaudeAdapter.Process (adapter source): scanner loop over the input lines. -/
def claudeProcess (parse : String → Option ClaudeStreamEvent) :
    List String → List Event
  | [] => []
  | line :: rest => claudeProcessLine parse line ++ claudeProcess parse rest

/-- PromptStyle (internal/agent, part_004): how the prompt reaches the agent. -/
inductive PromptStyle where
  | arg
  | pipe
  | stream
  | ollama
deriving DecidableEq, Repr

/-- Agent (internal/agent, part_004): immutable agent profile descriptor. -/
structure Agent where
  id : String
  name : String
  command : String
  checkCommand : String
  autonomousFlags : List String
  interactiveFlags : List String
  modelFlag : String
  promptStyle : PromptStyle
deriving DecidableEq, Repr

/-- Whitespace test used by the model of strings.Fields. -/
def isSpaceChar (c : Char) : Bool :=
  c = ' ' ∨ c = '\t' ∨ c = '\n' ∨ c = '\r'

/-- Accumulator form of strings.Fields; `acc` holds the current token
reversed. -/
def fieldsAux : List Char → List Char → List String
  | [], acc => if acc = [] then [] else [String.mk acc.reverse]
  | c :: rest, acc =>
    if isSpaceChar c then
      (if acc = [] then [] else [String.mk acc.reverse]) ++ fieldsAux rest []
    else fieldsAux rest (c :: acc)

/-- Models strings.Fields: whitespace-separated tokens, no empty tokens. -/
def fields (s : String) : List String :=
  fieldsAux s.data []

/-- Agent.BuildCommand (internal/agent, part_004): base command tokens, then
mode flags, then the model flag pair, then the style-dependent prompt suffix. -/
def Agent.buildCommand (a : Agent) (prompt model : String) (autonomous : Bool) :
    List String :=
  let args := fields a.command
  let flags := if autonomous then a.autonomousFlags else a.interactiveFlags
  let args := args ++ flags
  let args :=
    if model ≠ "" ∧ a.modelFlag ≠ "" then args ++ [a.modelFlag, model] else args
  match a.promptStyle with
  | .ollama => (if model ≠ "" then args ++ [model] else args) ++ [prompt]
  | .arg => args ++ [prompt]
  | .stream => args ++ [prompt]
  | .pipe => args

/-- The Command Builder contract as the spec states it (section 4.1), written
independently of the Go control flow, for comparison with
`Agent.buildCommand`. -/
def buildCommandSpec (a : Agent) (prompt model : String) (autonomous : Bool) :
    List String :=
  fields a.command
    ++ (if autonomous then a.autonomousFlags else a.interactiveFlags)
    ++ (if model ≠ "" ∧ a.modelFlag ≠ "" then [a.modelFlag, model] else [])
    ++ (match a.promptStyle with
        | .arg => [prompt]
        | .stream => [prompt]
        | .ollama => (if model ≠ "" then [model] else []) ++ [prompt]
        | .pipe => [])

/-- The claude profile as registered in part_007. -/
def claudeAgent : Agent where
  id := "claude"
  name := "Claude Code"
  command := "claude"
  checkCommand := "claude"
  autonomousFlags :=
    ["-p", "--dangerously-skip-permissions", "--verbose",
     "--output-format", "stream-json"]
  interactiveFlags := ["-p", "--verbose", "--output-format", "stream-json"]
  modelFlag := "--model"
  promptStyle := .stream

/-- The ollama profile as registered in internal/agent/ollama.go. -/
def ollamaAgent : Agent where
  id := "ollama"
  name := "Ollama"
  command := "ollama run"
  checkCommand := "ollama"
  autonomousFlags := []
  interactiveFlags := []
  modelFlag := ""
  promptStyle := .ollama

/-- Body of the per-line loop of git.GetChangedFiles (part_004): classify one
porcelain status line into the running (modified, staged, untracked) counts. -/
def classifyLine (counts : Nat × Nat × Nat) (line : String) : Nat × Nat × Nat :=
  match line.data with
  | [] => counts
  | c0 :: c1 :: _ :: _ =>
    let (modified, staged, untracked) := counts
    if c0 = '?' ∧ c1 = '?' then (modified, staged, untracked + 1)
    else
      let staged' := if c0 ≠ ' ' ∧ c0 ≠ '?' then staged + 1 else staged
      let modified' := if c1 ≠ ' ' ∧ c1 ≠ '?' then modified + 1 else modified
      (modified', staged', untracked)
  | _ => counts

/-- git.GetChangedFiles (part_004) over the split porcelain status lines. -/
def getChangedFiles (lines : List String) : Nat × Nat × Nat :=
  lines.foldl classifyLine (0, 0, 0)

/-- The distinct error return sites of RunIteration (internal/runner/iteration.go). -/
inductive IterError where
  | countBeforeFailed
  | emptyCommand
  | stdoutPipeFailed
  | stderrPipeFailed
  | startFailed
  | adapterFailed
  | countAfterFailed
  | changedFilesFailed
  | verificationFailed
deriving DecidableEq, Repr

/-- External-world outcomes consumed by one RunIteration call: results of the
git queries, of pipe/spawn setup, of the adapter goroutine, of the agent
subprocess exit and of the verification command. -/
structure IterEnv where
  countBefore : Option Nat
  stdoutPipeOk : Bool
  stderrPipeOk : Bool
  startOk : Bool
  agentExitOk : Bool
  adapterOk : Bool
  countAfter : Option Nat
  changedFiles : Option (Nat × Nat × Nat)
  verifyOk : Bool
deriving DecidableEq, Repr

/-- RunIteration (internal/runner/iteration.go): returns the commits made this
pass and the optional iteration error, following the Go control flow. A
non-zero agent exit (agentExitOk = false) is logged and never an error. -/
def runIteration (ag : Agent) (prompt model verify : String) (autonomous : Bool)
    (env : IterEnv) : Int × Option IterError :=
  match env.countBefore with
  | none => (0, some .countBeforeFailed)
  | some commitsBefore =>
    let cmdArgs := ag.buildCommand prompt model autonomous
    if cmdArgs = [] then (0, some .emptyCommand)
    else if env.stdoutPipeOk = false then (0, some .stdoutPipeFailed)
    else if env.stderrPipeOk = false then (0, some .stderrPipeFailed)
    else if env.startOk = false then (0, some .startFailed)
    else if env.adapterOk = false then (0, some .adapterFailed)
    else
      match env.countAfter with
      | none => (0, some .countAfterFailed)
      | some commitsAfter =>
        let commitsMade : Int := (commitsAfter : Int) - (commitsBefore : Int)
        match env.changedFiles with
        | none => (commitsMade, some .changedFilesFailed)
        | some _ =>
          if verify ≠ "" ∧ env.verifyOk = false then
            (commitsMade, some .verificationFailed)
          else (commitsMade, none)

/-- Runner exit codes (internal/runner/runner.go). -/
def ExitSuccess : Int := 0

/-- General error exit code (internal/runner/runner.go). -/
def ExitError : Int := 1

/-- Safety refusal exit code (internal/runner/runner.go). -/
def ExitSafety : Int := 2

/-- Max iterations exit code (internal/runner/runner.go). -/
def ExitMaxIterations : Int := 3

/-- Stuck exit code (internal/runner/runner.go). -/
def ExitStuck : Int := 4

/-- Interrupt exit code (internal/runner/runner.go). -/
def ExitInterrupt : Int := 130

/-- The Runner fields that drive the loop (internal/runner/runner.go). -/
structure RunnerConfig where
  stuckThreshold : Int
  autoPush : Bool
  maxIters : Int
  singleRun : Bool
deriving DecidableEq, Repr

/-- Observable outcome of one iteration as the loop consumes it: the commits
made, whether RunIteration returned an error (logged, loop continues), and
the git.HasChanges result (none models a query error, treated as false). -/
structure IterOutcome where
  commitsMade : Int
  iterFailed : Bool
  hasChangesResult : Option Bool
  pushOk : Bool
deriving DecidableEq, Repr

/-- Mutable loop state of Runner.Run: Metrics.Iterations, Metrics.Commits and
the stuck counter iterationsWithoutCommit. -/
structure RunState where
  iterations : Nat
  commits : Int
  iterationsWithoutCommit : Nat
deriving DecidableEq, Repr

/-- Loop state at entry of Runner.Run. -/
def initialRunState : RunState := ⟨0, 0, 0⟩

/-- Runner.Run (internal/runner/runner.go) as a fuel-bounded step function.
`interrupted n` tells whether the cancel signal is observed at the loop
boundary after n completed iterations; `outcomes n` is what iteration n+1
reports. Returns none when fuel runs out with the loop still Running. -/
def runLoop (cfg : RunnerConfig) (interrupted : Nat → Bool)
    (outcomes : Nat → IterOutcome) : Nat → RunState → Option (Int × RunState)
  | 0, _ => none
  | fuel + 1, st =>
    if interrupted st.iterations then some (ExitInterrupt, st)
    else if cfg.maxIters > 0 ∧ (st.iterations : Int) ≥ cfg.maxIters then
      some (ExitMaxIterations, st)
    else
      let outcome := outcomes st.iterations
      let commitsMade := outcome.commitsMade
      let st' : RunState :=
        { st with iterations := st.iterations + 1,
                  commits := st.commits + commitsMade }
      let hasChanges := outcome.hasChangesResult.getD false
      if hasChanges = false ∧ commitsMade = 0 then some (ExitSuccess, st')
      else if hasChanges = true ∧ commitsMade = 0 then
        let st'' : RunState :=
          { st' with iterationsWithoutCommit := st'.iterationsWithoutCommit + 1 }
        if (st''.iterationsWithoutCommit : Int) ≥ cfg.stuckThreshold then
          some (ExitStuck, st'')
        else if cfg.singleRun then some (ExitSuccess, st'')
        else runLoop cfg interrupted outcomes fuel st''
      else
        let st'' : RunState :=
          if commitsMade > 0 then { st' with iterationsWithoutCommit := 0 }
          else st'
        if cfg.singleRun then some (ExitSuccess, st'')
        else runLoop cfg interrupted outcomes fuel st''

/-- The stuck-threshold check of validateRunConfig (internal/cli/run.go):
only negative values are rejected. -/
def validStuckThreshold (t : Int) : Bool :=
  !(t < 0)

/-- A concrete claude-dialect parse oracle used by witnesses: it recognises
the two record lines of the spec scenario and fails on everything else,
as encoding/json does. -/
def claudeParseW (s : String) : Option ClaudeStreamEvent :=
  if s = "\x7b\"type\":\"result\"\x7d" then
    some ⟨"result", "", ⟨[]⟩, ⟨⟨"", ""⟩⟩⟩
  else if s = "\x7b\"type\":\"tool_use\",\"name\":\"Read\"\x7d" then
    some ⟨"tool_use", "Read", ⟨[]⟩, ⟨⟨"", ""⟩⟩⟩
  else none

/-- A concrete codex-dialect parse oracle used by witnesses: it recognises
the error-record line of the spec scenario and fails on everything else. -/
def codexParseW (s : String) : Option CodexEvent :=
  if s = "\x7b\"type\":\"error\",\"error\":\"X\",\"content\":\"Y\"\x7d" then
    some ⟨"error", "Y", "", "", "", "X"⟩
  else none

/-- The parse oracle that fails on every line, as encoding/json does on an
empty input. -/
def codexParseNone : String → Option CodexEvent :=
  fun _ => none

/-- Helper: the claude scanner loop distributes over list append. -/
theorem claudeProcess_append (parse : String → Option ClaudeStreamEvent)
    (xs ys : List String) :
    claudeProcess parse (xs ++ ys) =
      claudeProcess parse xs ++ claudeProcess parse ys := by
  induction xs with
  | nil => simp [claudeProcess]
  | cons l rest ih => simp [claudeProcess, ih]

/-- Claim C4: for every input line to the codex adapter, a JSON line with a
non-empty error field yields exactly one Error event and nothing else, and a
line that fails to parse is emitted verbatim as one AssistantMessage —
amended: this holds for every NON-EMPTY line (empty lines are skipped before
the JSON parse and emit nothing, see the counterexample). -/
theorem C4_codex_line_rules (parse : String → Option CodexEvent)
    (errLine badLine : String) (ev : CodexEvent)
    (herrNe : errLine ≠ "") (hp : parse errLine = some ev) (herr : ev.error ≠ "")
    (hbadNe : badLine ≠ "") (hbad : parse badLine = none) :
    codexProcessLine parse errLine = [Event.error ev.error] ∧
    codexProcessLine parse badLine = [Event.assistantMessage badLine] := by
  constructor
  · simp [codexProcessLine, herrNe, hp, herr]
  · simp [codexProcessLine, hbadNe, hbad]

/-- Witness for C4: the spec scenario, with the error record line producing
exactly one Error event carrying X, and the unparseable line "not json"
forwarded verbatim. -/
theorem C4_codex_line_rules_witness :
    codexProcessLine codexParseW
        "\x7b\"type\":\"error\",\"error\":\"X\",\"content\":\"Y\"\x7d" =
      [Event.error "X"] ∧
    codexProcessLine codexParseW "not json" =
      [Event.assistantMessage "not json"] :=
  C4_codex_line_rules codexParseW
    "\x7b\"type\":\"error\",\"error\":\"X\",\"content\":\"Y\"\x7d" "not json"
    ⟨"error", "Y", "", "", "", "X"⟩
    (by decide) (by decide) (by decide) (by decide) (by decide)

/-- Counterexample for C4 as frozen: the empty line fails to parse as JSON
(encoding/json rejects empty input, modelled by an oracle returning none),
yet the codex adapter emits no event for it at all, rather than one verbatim
AssistantMessage. -/
theorem C4_counterexample :
    codexParseNone "" = none ∧
    codexProcess codexParseNone [""] = [] ∧
    codexProcess codexParseNone [""] ≠ [Event.assistantMessage ""] := by
  refine ⟨rfl, rfl, ?_⟩
  decide

/-- Claim C5: claude-dialect line rules — a result record emits no event, a
tool_use record named Read emits exactly one ToolUse Read, a line that fails
to parse emits zero events, and such a failed line leaves the processing of
all other lines unchanged. -/
theorem C5_claude_line_rules (parse : String → Option ClaudeStreamEvent)
    (resLine toolLine badLine : String) (evRes evTool : ClaudeStreamEvent)
    (pre post : List String)
    (hres : parse resLine = some evRes) (hresTy : evRes.type = "result")
    (htool : parse toolLine = some evTool) (htoolTy : evTool.type = "tool_use")
    (htoolName : evTool.name = "Read") (htoolNe : toolLine ≠ "")
    (hbad : parse badLine = none) :
    claudeProcessLine parse resLine = [] ∧
    claudeProcessLine parse toolLine = [Event.toolUse "Read"] ∧
    claudeProcessLine parse badLine = [] ∧
    claudeProcess parse (pre ++ badLine :: post) =
      claudeProcess parse pre ++ claudeProcess parse post := by
  have hbadLine : claudeProcessLine parse badLine = [] := by
    by_cases hb : badLine = ""
    · simp [claudeProcessLine, hb]
    · simp [claudeProcessLine, hb, hbad]
  refine ⟨?_, ?_, hbadLine, ?_⟩
  · by_cases hr : resLine = ""
    · simp [claudeProcessLine, hr]
    · simp [claudeProcessLine, hr, hres, hresTy]
  · simp [claudeProcessLine, htoolNe, htool, htoolTy, htoolName]
  · rw [claudeProcess_append]
    simp [claudeProcess, hbadLine]

/-- Witness for C5: the spec scenario lines, processed by a concrete oracle. -/
theorem C5_claude_line_rules_witness :
    claudeProcessLine claudeParseW "\x7b\"type\":\"result\"\x7d" = [] ∧
    claudeProcessLine claudeParseW
        "\x7b\"type\":\"tool_use\",\"name\":\"Read\"\x7d" =
      [Event.toolUse "Read"] ∧
    claudeProcessLine claudeParseW "not json" = [] ∧
    claudeProcess claudeParseW
        (["\x7b\"type\":\"result\"\x7d"] ++ "not json" ::
          ["\x7b\"type\":\"tool_use\",\"name\":\"Read\"\x7d"]) =
      claudeProcess claudeParseW ["\x7b\"type\":\"result\"\x7d"] ++
        claudeProcess claudeParseW
          ["\x7b\"type\":\"tool_use\",\"name\":\"Read\"\x7d"] :=
  C5_claude_line_rules claudeParseW
    "\x7b\"type\":\"result\"\x7d"
    "\x7b\"type\":\"tool_use\",\"name\":\"Read\"\x7d" "not json"
    ⟨"result", "", ⟨[]⟩, ⟨⟨"", ""⟩⟩⟩ ⟨"tool_use", "Read", ⟨[]⟩, ⟨⟨"", ""⟩⟩⟩
    ["\x7b\"type\":\"result\"\x7d"]
    ["\x7b\"type\":\"tool_use\",\"name\":\"Read\"\x7d"]
    (by decide) (by decide) (by decide) (by decide) (by decide) (by decide)
    (by decide)

/-- Claim C6: the passthrough adapter emits every scanned line — empty lines
included — verbatim as exactly one AssistantMessage, in input order; in
particular the stream a-newline-newline-b-newline produces exactly the three
messages a, empty, b in that order. -/
theorem C6_passthrough_verbatim (lines : List String) :
    passThroughProcessLines lines = lines.map Event.assistantMessage ∧
    passThroughProcess "a\n\nb\n" =
      [Event.assistantMessage "a", Event.assistantMessage "",
       Event.assistantMessage "b"] := by
  constructor
  · induction lines with
    | nil => rfl
    | cons l rest ih => simp [passThroughProcessLines, ih]
  · rfl

/-- Claim C9: classifyChanges counts a space-M path as modified only, an
M-space path as staged only, an MM path as both staged and modified, and a
double-question-mark path as untracked only, whatever the path and the
running counts. -/
theorem C9_classify_status_codes (m s u : Nat) (path : String) :
    classifyLine (m, s, u) (" M " ++ path) = (m + 1, s, u) ∧
    classifyLine (m, s, u) ("M  " ++ path) = (m, s + 1, u) ∧
    classifyLine (m, s, u) ("MM " ++ path) = (m + 1, s + 1, u) ∧
    classifyLine (m, s, u) ("?? " ++ path) = (m, s, u + 1) := by
  refine ⟨?_, ?_, ?_, ?_⟩ <;> simp [classifyLine, String.data_append]

/-- Claim C10: on an empty input line both structured adapters emit no event
and continue with the next line, while the passthrough adapter emits one
empty AssistantMessage for it. -/
theorem C10_empty_line_behaviour (parseA : String → Option ClaudeStreamEvent)
    (parseB : String → Option CodexEvent) (restA restB restP : List String) :
    claudeProcessLine parseA "" = [] ∧
    codexProcessLine parseB "" = [] ∧
    claudeProcess parseA ("" :: restA) = claudeProcess parseA restA ∧
    codexProcess parseB ("" :: restB) = codexProcess parseB restB ∧
    passThroughProcessLines ("" :: restP) =
      Event.assistantMessage "" :: passThroughProcessLines restP := by
  refine ⟨?_, ?_, ?_, ?_, ?_⟩ <;>
    simp [claudeProcessLine, codexProcessLine, claudeProcess, codexProcess,
      passThroughProcessLines]

/-- Claim C7: the Command Builder returns exactly base command tokens, then
the mode flag list, then the model flag pair when both the override and the
flag name are non-empty, then the style-dependent prompt suffix (prompt last
for trailing-argument and structured-stdout styles, positional model then
prompt for the ollama style, nothing for the stdin-pipe style). -/
theorem C7_build_command_matches_spec (a : Agent) (prompt model : String)
    (autonomous : Bool) :
    a.buildCommand prompt model autonomous =
      buildCommandSpec a prompt model autonomous := by
  cases h : a.promptStyle <;>
    simp [Agent.buildCommand, buildCommandSpec, h] <;>
    split_ifs <;> simp [List.append_assoc]

/-- Claim C8: when a verification command is configured and fails, the
iteration is reported with a verification error yet still returns the
commitsMade value computed from the before/after commit counts. -/
theorem C8_verification_failure_keeps_commits (ag : Agent)
    (prompt model verify : String) (autonomous : Bool) (env : IterEnv)
    (before after : Nat) (files : Nat × Nat × Nat)
    (h1 : env.countBefore = some before)
    (h2 : ag.buildCommand prompt model autonomous ≠ [])
    (h3 : env.stdoutPipeOk = true) (h4 : env.stderrPipeOk = true)
    (h5 : env.startOk = true) (h6 : env.adapterOk = true)
    (h7 : env.countAfter = some after) (h8 : env.changedFiles = some files)
    (h9 : verify ≠ "") (h10 : env.verifyOk = false) :
    runIteration ag prompt model verify autonomous env =
      ((after : Int) - (before : Int), some IterError.verificationFailed) := by
  simp [runIteration, h1, h2, h3, h4, h5, h6, h7, h8, h9, h10]

/-- Witness for C8: the claude profile, commit count 3 before and 4 after,
verification command failing — the iteration reports the error and still
returns one commit made. -/
theorem C8_verification_failure_keeps_commits_witness :
    runIteration claudeAgent "task" "" "make test" true
        ⟨some 3, true, true, true, true, true, some 4, some (1, 2, 3), false⟩ =
      ((4 : Int) - (3 : Int), some IterError.verificationFailed) :=
  C8_verification_failure_keeps_commits claudeAgent "task" "" "make test" true
    ⟨some 3, true, true, true, true, true, some 4, some (1, 2, 3), false⟩
    3 4 (1, 2, 3) rfl (by decide) rfl rfl rfl rfl rfl rfl (by decide) rfl

/-- Claim C1, amended: a single-pass run always executes exactly one
iteration and then terminates; the terminal reason is Success for every
iteration outcome except when the iteration made zero commits while leaving
uncommitted changes and the stuck threshold is at most 1, in which case the
stuck check fires first and the reason is Stuck. -/
theorem C1_single_pass (cfg : RunnerConfig) (interrupted : Nat → Bool)
    (outcomes : Nat → IterOutcome) (fuel : Nat)
    (hs : cfg.singleRun = true) (hi : interrupted 0 = false) (hf : 1 ≤ fuel) :
    runLoop cfg interrupted outcomes fuel initialRunState =
      some
        (if (outcomes 0).hasChangesResult.getD false = true ∧
            (outcomes 0).commitsMade = 0 ∧ cfg.stuckThreshold ≤ 1
         then ExitStuck else ExitSuccess,
         ⟨1, (outcomes 0).commitsMade,
          if (outcomes 0).hasChangesResult.getD false = true ∧
             (outcomes 0).commitsMade = 0
          then 1 else 0⟩) := by
  obtain ⟨k, rfl⟩ : ∃ k, fuel = k + 1 := ⟨fuel - 1, by omega⟩
  have hm : ¬(cfg.maxIters > 0 ∧ ((0 : Nat) : Int) ≥ cfg.maxIters) := by omega
  by_cases hch : (outcomes 0).hasChangesResult.getD false = true
  · by_cases hcm : (outcomes 0).commitsMade = 0
    · by_cases hth : cfg.stuckThreshold ≤ 1
      · have h1 : ((0 + 1 : Nat) : Int) ≥ cfg.stuckThreshold := by omega
        simp [runLoop, initialRunState, hi, hm, hch, hcm, hth, hs, h1]
      · have h1 : ¬((0 + 1 : Nat) : Int) ≥ cfg.stuckThreshold := by omega
        simp [runLoop, initialRunState, hi, hm, hch, hcm, hth, hs, h1]
    · simp [runLoop, initialRunState, hi, hm, hch, hcm, hs]
  · simp only [Bool.not_eq_true] at hch
    by_cases hcm : (outcomes 0).commitsMade = 0
    · simp [runLoop, initialRunState, hi, hm, hch, hcm, hs]
    · simp [runLoop, initialRunState, hi, hm, hch, hcm, hs]

/-- Witness for C1: single-pass run, stuck threshold 3, one iteration with
zero commits and uncommitted changes present — it terminates after that one
iteration with reason Success. -/
theorem C1_single_pass_witness :
    runLoop ⟨3, false, 0, true⟩ (fun _ => false)
        (fun _ => ⟨0, false, some true, true⟩) 1 initialRunState =
      some
        (if ((fun _ => (⟨0, false, some true, true⟩ : IterOutcome)) 0
              |>.hasChangesResult.getD false) = true ∧
            ((fun _ => (⟨0, false, some true, true⟩ : IterOutcome)) 0
              |>.commitsMade) = 0 ∧
            (⟨3, false, 0, true⟩ : RunnerConfig).stuckThreshold ≤ 1
         then ExitStuck else ExitSuccess,
         ⟨1, ((fun _ => (⟨0, false, some true, true⟩ : IterOutcome)) 0
              |>.commitsMade),
          if ((fun _ => (⟨0, false, some true, true⟩ : IterOutcome)) 0
               |>.hasChangesResult.getD false) = true ∧
             ((fun _ => (⟨0, false, some true, true⟩ : IterOutcome)) 0
               |>.commitsMade) = 0
          then 1 else 0⟩) :=
  C1_single_pass ⟨3, false, 0, true⟩ (fun _ => false)
    (fun _ => ⟨0, false, some true, true⟩) 1 rfl rfl (by decide)

/-- Counterexample for C1 as frozen: stuck threshold 1 passes the cli
validation, yet a single-pass run whose only iteration makes zero commits
and leaves uncommitted changes terminates with reason Stuck, not Success:
the stuck check runs before the single-pass Success return. -/
theorem C1_counterexample :
    validStuckThreshold 1 = true ∧
    runLoop ⟨1, false, 0, true⟩ (fun _ => false)
        (fun _ => ⟨0, false, some true, true⟩) 1 initialRunState =
      some (ExitStuck, ⟨1, 0, 1⟩) ∧
    ExitStuck ≠ ExitSuccess := by
  refine ⟨rfl, by decide, by decide⟩

/-- Claim C2: in a looping run with stuck threshold 2 whose first two
iterations each report zero commits with uncommitted changes present, the
loop terminates with reason Stuck right after iteration 2 — the result does
not depend on any outcome beyond the first two, so iteration 3 never runs. -/
theorem C2_stuck_after_two (cfg : RunnerConfig) (interrupted : Nat → Bool)
    (outcomes : Nat → IterOutcome) (fuel : Nat)
    (hs : cfg.singleRun = false) (ht : cfg.stuckThreshold = 2)
    (hm : cfg.maxIters = 0 ∨ 2 ≤ cfg.maxIters)
    (hi0 : interrupted 0 = false) (hi1 : interrupted 1 = false)
    (ho0 : (outcomes 0).commitsMade = 0)
    (hc0 : (outcomes 0).hasChangesResult = some true)
    (ho1 : (outcomes 1).commitsMade = 0)
    (hc1 : (outcomes 1).hasChangesResult = some true)
    (hf : 2 ≤ fuel) :
    runLoop cfg interrupted outcomes fuel initialRunState =
      some (ExitStuck, ⟨2, 0, 2⟩) := by
  obtain ⟨k, rfl⟩ : ∃ k, fuel = k + 2 := ⟨fuel - 2, by omega⟩
  have hmA : ¬(0 < cfg.maxIters ∧ cfg.maxIters ≤ 0) := by omega
  have hmB : ¬(0 < cfg.maxIters ∧ cfg.maxIters ≤ 1) := by
    rcases hm with h | h <;> omega
  simp [runLoop, initialRunState, hi0, hi1, hmA, hmB, ho0, hc0, ho1, hc1,
    hs, ht]

/-- Witness for C2: threshold 2, unlimited iterations, every iteration
reporting zero commits with changes present — the loop stops with Stuck at
state (2 iterations, 0 commits, stuck counter 2). -/
theorem C2_stuck_after_two_witness :
    runLoop ⟨2, false, 0, false⟩ (fun _ => false)
        (fun _ => ⟨0, false, some true, true⟩) 2 initialRunState =
      some (ExitStuck, ⟨2, 0, 2⟩) :=
  C2_stuck_after_two ⟨2, false, 0, false⟩ (fun _ => false)
    (fun _ => ⟨0, false, some true, true⟩) 2 rfl rfl (Or.inl rfl)
    rfl rfl rfl rfl rfl rfl (by decide)

/-- Claim C3, evaluated at the failing input: with commit count 5 before the
pass and 4 after it, RunIteration returns commitsMade = -1 with no error,
and a run consuming that value folds -1 into the aggregate commit total and
terminates normally — the negative value is silently accepted, not treated
as a data-consistency anomaly. -/
theorem C3_negative_commits_accepted :
    runIteration claudeAgent "task" "" "" true
        ⟨some 5, true, true, true, true, true, some 4, some (0, 0, 0), true⟩ =
      (-1, none) ∧
    runLoop ⟨3, false, 0, true⟩ (fun _ => false)
        (fun _ => ⟨-1, false, some false, true⟩) 1 initialRunState =
      some (ExitSuccess, ⟨1, -1, 0⟩) := by
  constructor
  · decide
  · decide

end Gumloop
